import Mathlib

/-!
Verification of the Project Naranja trainer logic (src/project_naranja.py).

The application is a Streamlit script that is re-executed ("rerun") on every
user interaction and on every `st.rerun()` it issues itself.  All state lives
in `st.session_state`.  We embed the session state as a record and each
relevant branch of the script as a pure function from the current state plus
the inputs of that rerun (which buttons were clicked, the wall clock, the
results of external calls) to the next state.  `st.rerun()` ends the script
run immediately, so a branch that mutates and then calls `st.rerun()` is
embedded as returning right there.  Wall-clock time (`time.time()`) is
modelled as a rational number.
-/

namespace ProjectNaranja

/-- Python's `str.split()` with no argument: split on runs of whitespace,
dropping empty pieces (used at `question.question_sanitized.split()`). -/
def pySplit (s : String) : List String :=
  (s.split Char.isWhitespace).filter (· ≠ "")

/-- The fields of a qbreader `Tossup` that the trainer reads. -/
structure TossupQ where
  question_sanitized : String
  answer : String
  answer_sanitized : String
deriving DecidableEq

/-- The fields of a qbreader `Bonus` that the trainer reads. -/
structure BonusQ where
  leadin : String
  parts : List String
  answers : List String
deriving DecidableEq

/-- The active question held in `st.session_state.question`. -/
inductive Question
  | tossup (t : TossupQ)
  | bonus (b : BonusQ)
deriving DecidableEq

/-- The values of `st.session_state.tossup_state`. -/
inductive TossupState
  | waiting
  | reading
  | grace_period
  | buzzed
  | over
deriving DecidableEq

/-- The Trainer tab's session state: `question`, `words`, `word_index`,
`tossup_state`, `grace_period_end`, `feedback`, `bonus_answers`.
`word_index` is a Python int (it starts at -1), `grace_period_end` a wall
clock value, `feedback` the pair passed to `st.success`/`st.error` (or
`None`), `bonus_answers` the list of `(judgement.correct(), bonus_answer)`
pairs. -/
structure TrainerState where
  question : Option Question
  words : List String
  word_index : Int
  tossup_state : TossupState
  grace_period_end : ℚ
  feedback : Option (String × String)
  bonus_answers : List (Bool × String)
deriving DecidableEq

/-- The user inputs of one rerun of the tossup branch: which of the
`st.button` / `st.form_submit_button` widgets fired, and the text sitting in
the answer box. -/
structure TossupInputs where
  startClicked : Bool
  buzzClicked : Bool
  submitClicked : Bool
  user_answer : String
deriving DecidableEq

/-- One rerun of the Trainer tab's tossup branch (lines 310-348 of
src/project_naranja.py), for the active tossup.  `judge` is the external
`question.check_answer_sync(user_answer).correct()` call, `now` the value
`time.time()` returns during this rerun.

* `waiting`: the Start Reading button sets `tossup_state = 'reading'` and
  `word_index = 0`, then reruns.
* `reading`: a buzz sets `tossup_state = 'buzzed'` and reruns (so no word is
  advanced on that run); otherwise if `word_index < len(words) - 1` the index
  advances by one; otherwise `tossup_state = 'grace_period'` and
  `grace_period_end = time.time() + 5`.
* `grace_period`: while `grace_period_end - time.time() > 0` a buzz sets
  `tossup_state = 'buzzed'`, otherwise the state is unchanged; once the
  remaining time is not positive, `tossup_state = 'over'`.
* `buzzed`: submitting the form stores
  `("success", "Correct!")`/`("error", "Incorrect.")` according to the
  judgement and sets `tossup_state = 'over'`.
* `over`: no transition. -/
def renderTossup (judge : String → Bool) (s : TrainerState) (inp : TossupInputs)
    (now : ℚ) : TrainerState :=
  match s.tossup_state with
  | .waiting =>
      if inp.startClicked then
        { s with tossup_state := .reading, word_index := 0 }
      else s
  | .reading =>
      if inp.buzzClicked then
        { s with tossup_state := .buzzed }
      else if s.word_index < (s.words.length : Int) - 1 then
        { s with word_index := s.word_index + 1 }
      else
        { s with tossup_state := .grace_period, grace_period_end := now + 5 }
  | .grace_period =>
      if s.grace_period_end - now > 0 then
        if inp.buzzClicked then { s with tossup_state := .buzzed } else s
      else
        { s with tossup_state := .over }
  | .buzzed =>
      if inp.submitClicked then
        { s with
            feedback := some (if judge inp.user_answer then ("success", "Correct!")
                              else ("error", "Incorrect.")),
            tossup_state := .over }
      else s
  | .over => s

/-- What the `'over'` branch displays under the full question text (lines
345-348): the stored feedback if there is one, otherwise the warning
`"Time's up!"`. -/
def overFeedbackDisplay (s : TrainerState) : String × String :=
  match s.feedback with
  | some fb => fb
  | none => ("warning", "Time\x27s up!")

/-- The answer line of the tossup review section (line 374):
`st.markdown(f"**Correct Answer:** {question.answer}")`.  It is rendered
unconditionally, so it takes the stored feedback as an argument only to
record that the output does not depend on it. -/
def reviewCorrectAnswer (q : TossupQ) (_feedback : Option (String × String)) :
    String :=
  "**Correct Answer:** " ++ q.answer

/-- States reachable from `s` by zero or more reruns of the tossup branch,
with arbitrary user inputs and wall-clock readings. -/
inductive TossupReach (judge : String → Bool) (s : TrainerState) :
    TrainerState → Prop
  | refl : TossupReach judge s s
  | step (t : TrainerState) (inp : TossupInputs) (now : ℚ) :
      TossupReach judge s t → TossupReach judge s (renderTossup judge t inp now)

/-- The user input of one rerun of the Trainer tab's bonus branch: whether
the one live `st.form_submit_button("Submit Part Answer")` fired (the loop
at lines 351-366 `break`s at the first part without a stored answer, so at
most one form exists per rerun) and the text in its box. -/
structure BonusInputs where
  submitClicked : Bool
  bonus_answer : String
deriving DecidableEq

/-- One rerun of the Trainer tab's bonus branch (lines 349-368), for the
active bonus `q`.  `judge a b` is the external
`qbr.check_answer(a, b).correct()` call.

The `for i in range(len(parts))` loop displays every part that already has an
entry in `bonus_answers` and `break`s at the first part without one, showing
its form; that part's index is therefore `len(bonus_answers)`.  Submitting
the form appends `(judgement.correct(), bonus_answer)` and calls
`st.rerun()`, which ends the run before line 367.  Otherwise line 367 sets
`tossup_state = 'over'` when `len(bonus_answers) == len(parts)`.
(`question.answers[i]` is embedded with `List.getD`; the qbreader data has
`answers` parallel to `parts`.) -/
def renderBonus (judge : String → String → Bool) (q : BonusQ) (s : TrainerState)
    (inp : BonusInputs) : TrainerState :=
  if s.bonus_answers.length < q.parts.length ∧ inp.submitClicked then
    { s with bonus_answers := s.bonus_answers ++
        [(judge (q.answers.getD s.bonus_answers.length "") inp.bonus_answer,
          inp.bonus_answer)] }
  else if s.bonus_answers.length = q.parts.length then
    { s with tossup_state := .over }
  else s

/-- Line 370: `is_game_over = st.session_state.get('tossup_state') == 'over'`
gates the review section for tossups and bonuses alike. -/
def is_game_over (s : TrainerState) : Bool :=
  s.tossup_state = .over

/-- The value of `st.session_state.q_type` (the Question Type radio). -/
inductive QType
  | tossup
  | bonus
deriving DecidableEq

/-- `get_new_question` (lines 232-264).  The checkbox scans are embedded as
the lists they produce (`selected_difficulties`, `selected_categories`); the
external `qbr.random_tossup`/`qbr.random_bonus` calls as `Except` values
(`.error e` = the client raised `e`; `.ok l` = it returned the list `l`, and
`l[0]` on an empty list raises `IndexError`).  The function returns the new
session state together with the message `st.error` showed, if any:

* empty difficulty or category selection: an error message, no mutation;
* fetch raised or returned no question: `st.session_state.question = None`,
  nothing else is touched;
* tossup fetched: `words`, `tossup_state = 'waiting'`, `question`,
  `word_index = -1`, `feedback = None` are set;
* bonus fetched: `bonus_answers = []`, `question`, `word_index = -1`,
  `feedback = None` are set (note: `tossup_state` is NOT reset here). -/
def get_new_question (s : TrainerState) (q_type : QType)
    (selected_difficulties selected_categories : List Nat)
    (fetchTossup : Except String (List TossupQ))
    (fetchBonus : Except String (List BonusQ)) :
    TrainerState × Option String :=
  if selected_difficulties = [] ∨ selected_categories = [] then
    (s, some "Please select at least one difficulty and one category.")
  else
    match q_type with
    | .tossup =>
        match fetchTossup with
        | .error e => ({ s with question := none },
            some ("An error occurred: " ++ e))
        | .ok [] => ({ s with question := none },
            some "No questions found with the selected criteria. Please broaden your selection.")
        | .ok (q :: _) =>
            ({ s with
                words := pySplit q.question_sanitized,
                tossup_state := .waiting,
                question := some (.tossup q),
                word_index := -1,
                feedback := none }, none)
    | .bonus =>
        match fetchBonus with
        | .error e => ({ s with question := none },
            some ("An error occurred: " ++ e))
        | .ok [] => ({ s with question := none },
            some "No questions found with the selected criteria. Please broaden your selection.")
        | .ok (q :: _) =>
            ({ s with
                bonus_answers := [],
                question := some (.bonus q),
                word_index := -1,
                feedback := none }, none)

/-- Lines 302-303: with no active question the Trainer tab shows only the
info message. -/
def trainerEmptyMessage (s : TrainerState) : Option String :=
  if s.question = none then
    some "Click \x27Get New Question\x27 in the sidebar to start practicing!"
  else none

/-- One press of the review screen's `Next Question →` button (lines
397-399).  The button carries `on_click=get_new_question`, so the callback
runs first (fetch results `fetchT1`/`fetchB1`); Streamlit then reruns the
script, and the button's body — `get_new_question()` (fetch results
`fetchT2`/`fetchB2`) and `st.rerun()` — executes only if the button is
instantiated again on that rerun and returns `True`.  The button sits under
`if not st.session_state.question: ... else:` (line 302) and
`if is_game_over:` (line 371), both evaluated on the post-callback state, so
the body call happens exactly when the new `question` is not `None` and
`tossup_state` is still `'over'`.  (No branch rendered before line 370 can
mutate the state on that rerun: a fresh tossup is in `'waiting'` with no
Start click pending, and a fresh bonus with a non-zero part count leaves
line 367's check false.) -/
def nextQuestionClick (s : TrainerState) (q_type : QType)
    (selected_difficulties selected_categories : List Nat)
    (fetchT1 : Except String (List TossupQ)) (fetchB1 : Except String (List BonusQ))
    (fetchT2 : Except String (List TossupQ)) (fetchB2 : Except String (List BonusQ)) :
    TrainerState :=
  if (get_new_question s q_type selected_difficulties selected_categories
        fetchT1 fetchB1).1.question ≠ none ∧
      is_game_over (get_new_question s q_type selected_difficulties
        selected_categories fetchT1 fetchB1).1 = true then
    (get_new_question
      (get_new_question s q_type selected_difficulties selected_categories
        fetchT1 fetchB1).1
      q_type selected_difficulties selected_categories fetchT2 fetchB2).1
  else
    (get_new_question s q_type selected_difficulties selected_categories
      fetchT1 fetchB1).1

/-- Line 520: `total_pages = (total_results // 10) + (1 if total_results % 10
> 0 else 0)`, where `total_results = max(tossup_count, bonus_count)`. -/
def total_pages (total_results : Nat) : Nat :=
  total_results / 10 + (if total_results % 10 > 0 then 1 else 0)

/-- One rerun of the Question Search pagination controls (lines 518-529).
The controls only exist when `total_results > 10`; the Previous button is
`disabled=(search_page <= 1)` and the Next button
`disabled=(search_page >= total_pages)`, and a disabled Streamlit button can
never return `True`, so a click only takes effect under the enabling guard.
Each click adjusts `search_page` by one and calls `st.rerun()`. -/
def searchPaginationStep (search_page : Int) (tossup_count bonus_count : Nat)
    (prevClicked nextClicked : Bool) : Int :=
  if max tossup_count bonus_count > 10 then
    if prevClicked ∧ ¬(search_page ≤ 1) then search_page - 1
    else if nextClicked ∧
        ¬(search_page ≥ (total_pages (max tossup_count bonus_count) : Int)) then
      search_page + 1
    else search_page
  else search_page

/-- A Python value decoded from JSON (strings, numbers, lists, dicts), as
handled by `get_ai_structured_explanation`. -/
inductive PyVal
  | str (s : String)
  | num (n : Int)
  | list (xs : List PyVal)
  | dict (kvs : List (String × PyVal))

/-- Python's `k in v` for a string `k`: key membership for a dict, element
membership for a list (a string compares unequal to non-strings), a
`TypeError` for other values. -/
def pyContainsStr (v : PyVal) (k : String) : Except String Bool :=
  match v with
  | .dict kvs => .ok (kvs.any fun kv => kv.1 = k)
  | .list xs => .ok (xs.any fun x => match x with | .str t => t = k | _ => false)
  | _ => .error "TypeError"

/-- Python's `v[k]` for a string key: dict lookup (`KeyError` when absent),
`TypeError` on anything else. -/
def pyGetStr (v : PyVal) (k : String) : Except String PyVal :=
  match v with
  | .dict kvs =>
      match kvs.find? (fun kv => kv.1 = k) with
      | some kv => .ok kv.2
      | none => .error "KeyError"
  | _ => .error "TypeError"

/-- Python's `v[i]` for an int index: list indexing (`IndexError` out of
range), `KeyError` on a dict with string keys, `TypeError` otherwise. -/
def pyGetIdx (v : PyVal) (i : Nat) : Except String PyVal :=
  match v with
  | .list xs =>
      match xs.get? i with
      | some x => .ok x
      | none => .error "IndexError"
  | .dict _ => .error "KeyError"
  | _ => .error "TypeError"

/-- The outcome of the `requests.post` call inside
`get_ai_structured_explanation`: either the transport raised a
`requests.exceptions.RequestException`, or a response arrived with a status
code and a body. -/
inductive HttpOutcome
  | transportError (msg : String)
  | response (status : Nat) (body : String)

/-- `get_ai_structured_explanation` (lines 163-199).  `parse` is the external
JSON decoder (`response.json()` / `json.loads`; `none` = the text is
malformed JSON and the decoder raises `JSONDecodeError`), `api_key` the value
of `os.getenv("GEMINI_API_KEY")`, `resp` the outcome of the POST.  A result
`.ok v` means the function returned the value `v`; `.error e` means an
exception `e` escaped it.  The `try` block catches exactly
`(requests.exceptions.RequestException, json.JSONDecodeError)` and returns
`{}` — this covers the transport error, the `response.raise_for_status()`
`HTTPError` on a status of 400 or more, and both decode sites. -/
def get_ai_structured_explanation (parse : String → Option PyVal)
    (api_key : Option String) (resp : HttpOutcome) : Except String PyVal :=
  match api_key with
  | none => .ok (.dict [])
  | some _ =>
      match resp with
      | .transportError _ => .ok (.dict [])
      | .response status body =>
          if 400 ≤ status then .ok (.dict [])
          else
            match parse body with
            | none => .ok (.dict [])
            | some result =>
                match pyContainsStr result "candidates" with
                | .error e => .error e
                | .ok false =>
                    .ok (.dict
                      [("explanation",
                        .str "Sorry, the AI could not provide a structured explanation."),
                       ("image_search_query", .str "error"),
                       ("recommended_reading", .list [])])
                | .ok true =>
                    match (do
                        let c ← pyGetStr result "candidates"
                        let c0 ← pyGetIdx c 0
                        let content ← pyGetStr c0 "content"
                        let parts ← pyGetStr content "parts"
                        let p0 ← pyGetIdx parts 0
                        pyGetStr p0 "text" : Except String PyVal) with
                    | .error e => .error e
                    | .ok (.str json_string) =>
                        match parse json_string with
                        | none => .ok (.dict [])
                        | some v => .ok v
                    | .ok _ => .error "TypeError"

/-- A rerun of the tossup branch never changes the word list. -/
theorem renderTossup_words (judge : String → Bool) (s : TrainerState)
    (inp : TossupInputs) (now : ℚ) :
    (renderTossup judge s inp now).words = s.words := by
  unfold renderTossup
  cases hts : s.tossup_state <;> split_ifs <;> rfl

/-- The word list is constant along any run of the tossup branch. -/
theorem tossupReach_words (judge : String → Bool) (s0 s : TrainerState)
    (hr : TossupReach judge s0 s) : s.words = s0.words := by
  induction hr with
  | refl => rfl
  | step t inp now _ ih => rw [renderTossup_words, ih]

/-- The invariant of the Reading state: the word index lies within
`[0, len(words) - 1]`. -/
def ReadingInv (s : TrainerState) : Prop :=
  s.tossup_state = .reading →
    0 ≤ s.word_index ∧ s.word_index ≤ (s.words.length : Int) - 1

/-- One rerun preserves `ReadingInv` when the word list is non-empty. -/
theorem renderTossup_readingInv (judge : String → Bool) (s : TrainerState)
    (inp : TossupInputs) (now : ℚ) (hw : s.words ≠ [])
    (h : ReadingInv s) : ReadingInv (renderTossup judge s inp now) := by
  have hlen : 0 < s.words.length := List.length_pos.mpr hw
  unfold ReadingInv renderTossup at *
  cases hts : s.tossup_state <;> simp only [hts] at h ⊢ <;> (try split_ifs) <;>
    intro hread <;> simp_all <;> omega

/-- Every state reachable from a fresh Waiting state satisfies
`ReadingInv`. -/
theorem tossupReach_readingInv (judge : String → Bool) (s0 s : TrainerState)
    (h0 : s0.tossup_state = .waiting) (hw : s0.words ≠ [])
    (hr : TossupReach judge s0 s) : ReadingInv s := by
  induction hr with
  | refl => intro hread; rw [h0] at hread; cases hread
  | step t inp now ht ih =>
      exact renderTossup_readingInv judge t inp now
        (by rw [tossupReach_words judge s0 t ht]; exact hw) ih

/-- One rerun preserves "no stored verdict outside Over": the feedback is
written only together with the transition to Over. -/
theorem renderTossup_feedback_inv (judge : String → Bool) (s : TrainerState)
    (inp : TossupInputs) (now : ℚ)
    (h : s.tossup_state ≠ .over → s.feedback = none) :
    (renderTossup judge s inp now).tossup_state ≠ .over →
      (renderTossup judge s inp now).feedback = none := by
  unfold renderTossup
  cases hts : s.tossup_state <;> simp only [hts] at h ⊢ <;> (try split_ifs) <;>
    intro hne <;> simp_all

/-- Along any run from a state with no stored verdict, a state that is not
Over has no stored verdict. -/
theorem tossupReach_feedback (judge : String → Bool) (s0 s : TrainerState)
    (hf : s0.feedback = none) (hr : TossupReach judge s0 s) :
    s.tossup_state ≠ .over → s.feedback = none := by
  induction hr with
  | refl => intro _; exact hf
  | step t inp now _ ih => exact renderTossup_feedback_inv judge t inp now ih

/-- The Over state is terminal: a rerun leaves the whole state unchanged. -/
theorem renderTossup_over_terminal (judge : String → Bool) (s : TrainerState)
    (inp : TossupInputs) (now : ℚ) (h : s.tossup_state = .over) :
    renderTossup judge s inp now = s := by
  unfold renderTossup
  rw [h]

/-- A concrete tossup for witness instances. -/
def tossupEx : TossupQ :=
  { question_sanitized := "Name the capital of France"
    answer := "Paris"
    answer_sanitized := "Paris" }

/-- A concrete judge for witness instances: accepts exactly "Paris". -/
def judgeEx : String → Bool := fun a => a = "Paris"

/-- A session state with `tossupEx` active and its reading not yet started
(the shape `get_new_question` produces). -/
def s0ex : TrainerState :=
  { question := some (.tossup tossupEx)
    words := ["Name", "the", "capital", "of", "France"]
    word_index := -1
    tossup_state := .waiting
    grace_period_end := 0
    feedback := none
    bonus_answers := [] }

/-- The inputs of a rerun where only the Start Reading button fired. -/
def inpStart : TossupInputs :=
  { startClicked := true, buzzClicked := false, submitClicked := false
    user_answer := "" }

/-- The inputs of a rerun where no widget fired. -/
def inpNone : TossupInputs :=
  { startClicked := false, buzzClicked := false, submitClicked := false
    user_answer := "" }

/-- The inputs of a rerun where only the buzz button fired. -/
def inpBuzz : TossupInputs :=
  { startClicked := false, buzzClicked := true, submitClicked := false
    user_answer := "" }

/-- C1: for every tossup, in every state reachable from a fresh Waiting state
the word index while Reading lies within `[0, len(words)-1]`; one further
rerun never decreases it while Reading; pressing Start Reading from Waiting
enters Reading with the index set to 0; and a rerun in Reading increments
the index by exactly one precisely when no buzz fired and the index is
strictly below the last index. -/
theorem C1_reading_word_index (judge : String → Bool) (s0 s : TrainerState)
    (inp : TossupInputs) (now : ℚ)
    (h0 : s0.tossup_state = .waiting) (hw : s0.words ≠ [])
    (hr : TossupReach judge s0 s) :
    (s.tossup_state = .reading →
      0 ≤ s.word_index ∧ s.word_index ≤ (s.words.length : Int) - 1) ∧
    (s.tossup_state = .reading →
      s.word_index ≤ (renderTossup judge s inp now).word_index) ∧
    (s.tossup_state = .waiting → inp.startClicked = true →
      (renderTossup judge s inp now).tossup_state = .reading ∧
      (renderTossup judge s inp now).word_index = 0) ∧
    (s.tossup_state = .reading →
      ((renderTossup judge s inp now).word_index = s.word_index + 1 ↔
        inp.buzzClicked = false ∧ s.word_index < (s.words.length : Int) - 1)) := by
  have hinv := tossupReach_readingInv judge s0 s h0 hw hr
  refine ⟨hinv, ?_, ?_, ?_⟩
  · intro hread
    unfold renderTossup
    simp only [hread]
    split_ifs <;> simp
  · intro hwait hstart
    unfold renderTossup
    simp only [hwait, hstart]
    exact ⟨rfl, rfl⟩
  · intro hread
    unfold renderTossup
    simp only [hread]
    split_ifs with hbuzz hlt
    · simp [hbuzz]
    · simp [hbuzz, hlt]
    · simp [hbuzz, hlt]

/-- C1 witness: starting from the freshly fetched example state, one press of
Start Reading enters Reading at word index 0, and the index bounds hold. -/
theorem C1_witness :
    (renderTossup judgeEx s0ex inpStart 0).tossup_state = .reading ∧
    (renderTossup judgeEx s0ex inpStart 0).word_index = 0 := by
  have h := C1_reading_word_index judgeEx s0ex s0ex inpStart 0 rfl
    (by simp [s0ex]) .refl
  exact h.2.2.1 rfl rfl

/-- C2: a rerun enters GracePeriod exactly when the state is Reading, no
buzz fired on that rerun, and the word index has reached the last word; and
on that entry the grace deadline becomes `time.time() + 5`. -/
theorem C2_grace_entry (judge : String → Bool) (s0 s : TrainerState)
    (inp : TossupInputs) (now : ℚ)
    (h0 : s0.tossup_state = .waiting) (hw : s0.words ≠ [])
    (hr : TossupReach judge s0 s) :
    ((renderTossup judge s inp now).tossup_state = .grace_period ∧
        s.tossup_state ≠ .grace_period ↔
      s.tossup_state = .reading ∧ inp.buzzClicked = false ∧
        s.word_index = (s.words.length : Int) - 1) ∧
    (s.tossup_state = .reading → inp.buzzClicked = false →
      s.word_index = (s.words.length : Int) - 1 →
      (renderTossup judge s inp now).grace_period_end = now + 5) := by
  have hinv := tossupReach_readingInv judge s0 s h0 hw hr
  constructor
  · constructor
    · rintro ⟨hg, hne⟩
      unfold renderTossup at hg
      cases hts : s.tossup_state
      case waiting =>
        simp only [hts] at hg
        split_ifs at hg <;> simp_all
      case reading =>
        simp only [hts] at hg
        split_ifs at hg with hbuzz hlt
        exact ⟨rfl, by simpa using hbuzz, by have := hinv hts; omega⟩
      case grace_period => exact absurd hts hne
      case buzzed =>
        simp only [hts] at hg
        split_ifs at hg <;> simp_all
      case over =>
        simp only [hts] at hg
        simp_all
    · rintro ⟨hread, hbuzz, heq⟩
      unfold renderTossup
      simp only [hread]
      split_ifs with h1 h2
      · simp [hbuzz] at h1
      · exfalso; omega
      · exact ⟨rfl, by simp⟩
  · intro hread hbuzz heq
    unfold renderTossup
    simp only [hread]
    split_ifs with h1 h2
    · simp [hbuzz] at h1
    · exfalso; omega
    · rfl

/-- The state after Start Reading and four word-advancing reruns of the
example tossup: Reading with the last word (index 4 of 5) revealed. -/
def sLastEx : TrainerState :=
  renderTossup judgeEx
    (renderTossup judgeEx
      (renderTossup judgeEx
        (renderTossup judgeEx
          (renderTossup judgeEx s0ex inpStart 0) inpNone 0) inpNone 0)
      inpNone 0) inpNone 0

/-- The example run reaches `sLastEx`. -/
theorem sLastEx_reach : TossupReach judgeEx s0ex sLastEx :=
  .step _ inpNone 0 (.step _ inpNone 0 (.step _ inpNone 0
    (.step _ inpNone 0 (.step _ inpStart 0 .refl))))

/-- C2 witness: on the example run, the rerun after the last word is revealed
enters GracePeriod with deadline `6 + 5`. -/
theorem C2_witness :
    (renderTossup judgeEx sLastEx inpNone 6).tossup_state = .grace_period ∧
    (renderTossup judgeEx sLastEx inpNone 6).grace_period_end = 6 + 5 := by
  have h := C2_grace_entry judgeEx s0ex sLastEx inpNone 6 rfl
    (by simp [s0ex]) sLastEx_reach
  exact ⟨(h.1.mpr ⟨rfl, rfl, rfl⟩).1, h.2 rfl rfl rfl⟩

/-- C3: from a reachable GracePeriod state with no verdict stored yet, a
rerun at or past the deadline moves to Over with no stored verdict and the
Over screen shows the "timed out" warning; a buzz strictly before the
deadline moves to Buzzed. -/
theorem C3_grace_exit (judge : String → Bool) (s0 s : TrainerState)
    (inp : TossupInputs) (now : ℚ)
    (hf : s0.feedback = none) (hr : TossupReach judge s0 s)
    (hs : s.tossup_state = .grace_period) :
    (s.grace_period_end ≤ now →
      (renderTossup judge s inp now).tossup_state = .over ∧
      (renderTossup judge s inp now).feedback = none ∧
      overFeedbackDisplay (renderTossup judge s inp now) =
        ("warning", "Time\x27s up!")) ∧
    (now < s.grace_period_end → inp.buzzClicked = true →
      (renderTossup judge s inp now).tossup_state = .buzzed) := by
  have hnone : s.feedback = none :=
    tossupReach_feedback judge s0 s hf hr (by rw [hs]; intro h; cases h)
  constructor
  · intro hlate
    unfold renderTossup
    simp only [hs]
    split_ifs with h1 h2
    · exfalso
      rw [gt_iff_lt, sub_pos] at h1
      exact absurd h1 (not_lt.mpr hlate)
    · exfalso
      rw [gt_iff_lt, sub_pos] at h1
      exact absurd h1 (not_lt.mpr hlate)
    · exact ⟨rfl, hnone, by simp [overFeedbackDisplay, hnone]⟩
  · intro hearly hbuzz
    unfold renderTossup
    simp only [hs, hbuzz]
    split_ifs with h1
    · rfl
    · exfalso
      apply h1
      rw [gt_iff_lt, sub_pos]
      exact hearly

/-- The example run one rerun later: GracePeriod entered at time 6, so the
deadline is `6 + 5`. -/
def sGraceEx : TrainerState := renderTossup judgeEx sLastEx inpNone 6

/-- C3 witness: on the example run, a rerun at time 11 (the deadline) moves
to Over with no verdict and shows the timeout warning, while a buzz at time
8 moves to Buzzed. -/
theorem C3_witness :
    (renderTossup judgeEx sGraceEx inpNone 11).tossup_state = .over ∧
    (renderTossup judgeEx sGraceEx inpNone 11).feedback = none ∧
    overFeedbackDisplay (renderTossup judgeEx sGraceEx inpNone 11) =
      ("warning", "Time\x27s up!") ∧
    (renderTossup judgeEx sGraceEx inpBuzz 8).tossup_state = .buzzed := by
  have hreach : TossupReach judgeEx s0ex sGraceEx := .step _ inpNone 6 sLastEx_reach
  have hd : sGraceEx.grace_period_end = 6 + 5 := rfl
  have h1 := C3_grace_exit judgeEx s0ex sGraceEx inpNone 11 rfl hreach rfl
  have h2 := C3_grace_exit judgeEx s0ex sGraceEx inpBuzz 8 rfl hreach rfl
  have hlate : sGraceEx.grace_period_end ≤ 11 := by rw [hd]; norm_num
  have hearly : (8:ℚ) < sGraceEx.grace_period_end := by rw [hd]; norm_num
  exact ⟨(h1.1 hlate).1, (h1.1 hlate).2.1, (h1.1 hlate).2.2, h2.2 hearly rfl⟩

/-- C4: from Buzzed, submitting an answer moves to Over with the boolean
verdict returned by the answer judge stored as the feedback; the resulting
Over state is terminal (no further rerun changes anything, so the
transition happens exactly once); and the review screen's answer line shows
the canonical answer whatever the stored verdict is. -/
theorem C4_buzzed_judge_once (judge : String → Bool) (q : TossupQ)
    (s : TrainerState) (inp : TossupInputs) (now : ℚ)
    (hb : s.tossup_state = .buzzed) (hsub : inp.submitClicked = true) :
    (renderTossup judge s inp now).tossup_state = .over ∧
    (renderTossup judge s inp now).feedback =
      some (if judge inp.user_answer then ("success", "Correct!")
            else ("error", "Incorrect.")) ∧
    (∀ t, TossupReach judge (renderTossup judge s inp now) t →
      t = renderTossup judge s inp now) ∧
    (∀ fb, reviewCorrectAnswer q fb = "**Correct Answer:** " ++ q.answer) := by
  have hover : (renderTossup judge s inp now).tossup_state = .over := by
    unfold renderTossup
    simp [hb, hsub]
  refine ⟨hover, ?_, ?_, fun fb => rfl⟩
  · unfold renderTossup
    simp [hb, hsub]
  · intro t ht
    induction ht with
    | refl => rfl
    | step u inp2 now2 hu ih =>
        rw [ih, renderTossup_over_terminal judge (renderTossup judge s inp now)
          inp2 now2 hover]

/-- A Buzzed state of the example tossup, and the submission of the correct
answer. -/
def sBuzzedEx : TrainerState :=
  { s0ex with tossup_state := .buzzed, word_index := 2 }

/-- The inputs of a rerun where the answer form was submitted with
"Paris". -/
def inpSubmit : TossupInputs :=
  { startClicked := false, buzzClicked := false, submitClicked := true
    user_answer := "Paris" }

/-- C4 witness: submitting "Paris" from the example Buzzed state ends in
Over with a stored correct verdict, and the review line shows the canonical
answer. -/
theorem C4_witness :
    (renderTossup judgeEx sBuzzedEx inpSubmit 3).tossup_state = .over ∧
    (renderTossup judgeEx sBuzzedEx inpSubmit 3).feedback =
      some ("success", "Correct!") ∧
    reviewCorrectAnswer tossupEx
      (renderTossup judgeEx sBuzzedEx inpSubmit 3).feedback =
      "**Correct Answer:** Paris" := by
  have h := C4_buzzed_judge_once judgeEx tossupEx sBuzzedEx inpSubmit 3 rfl rfl
  refine ⟨h.1, ?_, ?_⟩
  · rw [h.2.1]
    simp [judgeEx, inpSubmit]
  · exact h.2.2.2 _

/-- A concrete three-part bonus. -/
def bonusEx : BonusQ :=
  { leadin := "For ten points each, name these European capitals."
    parts := ["Capital of France.", "Capital of Italy.", "Capital of Germany."]
    answers := ["Paris", "Rome", "Berlin"] }

/-- The example tossup played to its Over state (a correct answer stored). -/
def sTossupOverEx : TrainerState :=
  { s0ex with tossup_state := .over, feedback := some ("success", "Correct!") }

/-- A bonus rerun on which no form was submitted. -/
def inpBonusNone : BonusInputs := { submitClicked := false, bonus_answer := "" }

/-- C5 (failing input): `get_new_question` for a bonus resets
`bonus_answers` but not `tossup_state`, so loading a fresh bonus right after
a tossup ended leaves `tossup_state == 'over'` — the review section
(`is_game_over`) is shown although zero of the three parts have been
answered, and a further rerun with no submission keeps it shown. -/
theorem C5_bonus_review_bug :
    ((get_new_question sTossupOverEx .bonus [1] [1] (.ok [])
        (.ok [bonusEx])).1.bonus_answers.length = 0) ∧
    bonusEx.parts.length = 3 ∧
    is_game_over (get_new_question sTossupOverEx .bonus [1] [1] (.ok [])
        (.ok [bonusEx])).1 = true ∧
    is_game_over (renderBonus (fun _ _ => false) bonusEx
        (get_new_question sTossupOverEx .bonus [1] [1] (.ok [])
          (.ok [bonusEx])).1 inpBonusNone) = true := by
  exact ⟨rfl, rfl, rfl, rfl⟩

/-- C6: `get_new_question` with an empty difficulty selection or an empty
category selection reports the validation error and returns the session
state unchanged. -/
theorem C6_empty_filters (s : TrainerState) (q_type : QType)
    (selected_difficulties selected_categories : List Nat)
    (ft : Except String (List TossupQ)) (fb : Except String (List BonusQ))
    (h : selected_difficulties = [] ∨ selected_categories = []) :
    get_new_question s q_type selected_difficulties selected_categories ft fb =
      (s, some "Please select at least one difficulty and one category.") := by
  unfold get_new_question
  rw [if_pos h]

/-- C6 witness: an empty difficulty list on the example state. -/
theorem C6_witness :
    get_new_question s0ex .tossup [] [1] (.ok [tossupEx]) (.ok []) =
      (s0ex, some "Please select at least one difficulty and one category.") :=
  C6_empty_filters s0ex .tossup [] [1] (.ok [tossupEx]) (.ok []) (Or.inl rfl)

/-- C7: the page count of a search is the ceiling of
`max(tossup_count, bonus_count) / 10` (the least `k` with `total ≤ 10 * k`;
23 results give 3 pages), and with the Next button disabled on the last
page and the Previous button disabled on page 1 a click there leaves the
page unchanged. -/
theorem C7_pagination (tossup_count bonus_count : Nat) (page : Int) :
    total_pages 23 = 3 ∧
    (∀ n : Nat, n ≤ 10 * total_pages n ∧
      ∀ k : Nat, n ≤ 10 * k → total_pages n ≤ k) ∧
    (page ≥ (total_pages (max tossup_count bonus_count) : Int) →
      searchPaginationStep page tossup_count bonus_count false true = page) ∧
    (page ≤ 1 →
      searchPaginationStep page tossup_count bonus_count true false = page) := by
  refine ⟨rfl, ?_, ?_, ?_⟩
  · intro n
    constructor
    · unfold total_pages; split_ifs with h <;> omega
    · intro k hk; unfold total_pages; split_ifs with h <;> omega
  · intro hge
    unfold searchPaginationStep
    split_ifs with h1 h2 h3
    · simp at h2
    · exact absurd hge h3.2
    · rfl
    · rfl
  · intro hle
    unfold searchPaginationStep
    split_ifs with h1 h2 h3
    · exact absurd hle h2.2
    · simp at h3
    · rfl
    · rfl

/-- C7 witness: 23 tossups and 0 bonuses give 3 pages; Next on page 3 and
Previous on page 1 are no-ops. -/
theorem C7_witness :
    total_pages 23 = 3 ∧
    searchPaginationStep 3 23 0 false true = 3 ∧
    searchPaginationStep 1 23 0 true false = 1 := by
  have h3 := C7_pagination 23 0 3
  have h1 := C7_pagination 23 0 1
  exact ⟨h3.1, h3.2.2.1 (by decide), h1.2.2.2 (by decide)⟩

/-- C8: on a transport failure, and on a response whose body is malformed
JSON (at any status code), `get_ai_structured_explanation` returns the
empty dict `{}` and raises nothing. -/
theorem C8_fetcher_empty_on_failure (parse : String → Option PyVal)
    (key msg body : String) (status : Nat) :
    get_ai_structured_explanation parse (some key) (.transportError msg) =
      .ok (.dict []) ∧
    (parse body = none →
      get_ai_structured_explanation parse (some key) (.response status body) =
        .ok (.dict [])) := by
  constructor
  · rfl
  · intro hp
    simp only [get_ai_structured_explanation, hp]
    split_ifs <;> rfl

/-- A mocked JSON decoder that fails on every body. -/
def parseNoneEx : String → Option PyVal := fun _ => none

/-- C8 witness: a mocked endpoint returning malformed JSON (and one whose
transport fails) yields `{}` without raising. -/
theorem C8_witness :
    get_ai_structured_explanation parseNoneEx (some "key")
      (.transportError "connection refused") = .ok (.dict []) ∧
    get_ai_structured_explanation parseNoneEx (some "key")
      (.response 200 "this is not json") = .ok (.dict []) := by
  have h := C8_fetcher_empty_on_failure parseNoneEx "key" "connection refused"
    "this is not json" 200
  exact ⟨h.1, h.2 rfl⟩

/-- C9: when the question-bank client raises, and when it returns no
question (the `[0]` indexing raises `IndexError`), `get_new_question`
clears the active question, changes nothing else, and reports a message;
the Trainer tab then shows the Waiting-equivalent empty-state info text. -/
theorem C9_failed_fetch_clears (s : TrainerState) (q_type : QType)
    (selected_difficulties selected_categories : List Nat) (e : String)
    (hd : selected_difficulties ≠ []) (hc : selected_categories ≠ []) :
    get_new_question s q_type selected_difficulties selected_categories
        (.error e) (.error e) =
      ({ s with question := none }, some ("An error occurred: " ++ e)) ∧
    get_new_question s q_type selected_difficulties selected_categories
        (.ok []) (.ok []) =
      ({ s with question := none },
        some "No questions found with the selected criteria. Please broaden your selection.") ∧
    trainerEmptyMessage { s with question := none } =
      some "Click \x27Get New Question\x27 in the sidebar to start practicing!" := by
  have hcond : ¬(selected_difficulties = [] ∨ selected_categories = []) := by
    simp [hd, hc]
  refine ⟨?_, ?_, ?_⟩
  · unfold get_new_question
    rw [if_neg hcond]
    cases q_type <;> rfl
  · unfold get_new_question
    rw [if_neg hcond]
    cases q_type <;> rfl
  · simp [trainerEmptyMessage]

/-- C9 witness: a raising client and an empty result on the example state. -/
theorem C9_witness :
    get_new_question s0ex .tossup [1] [1] (.error "boom") (.error "boom") =
      ({ s0ex with question := none }, some ("An error occurred: " ++ "boom")) ∧
    get_new_question s0ex .tossup [1] [1] (.ok []) (.ok []) =
      ({ s0ex with question := none },
        some "No questions found with the selected criteria. Please broaden your selection.") ∧
    trainerEmptyMessage { s0ex with question := none } =
      some "Click \x27Get New Question\x27 in the sidebar to start practicing!" := by
  have h := C9_failed_fetch_clears s0ex .tossup [1] [1] "boom"
    (by simp) (by simp)
  exact ⟨h.1, h.2.1, h.2.2⟩

/-- A second concrete tossup, distinct from `tossupEx`. -/
def tossup2Ex : TossupQ :=
  { question_sanitized := "Name the longest river in Europe"
    answer := "Volga"
    answer_sanitized := "Volga" }

/-- C10 counterexample: pressing `Next Question →` on the tossup review
screen with a successful tossup fetch in the callback runs the fetch only
once — the callback resets `tossup_state` to `'waiting'`, the review section
is not rendered on the rerun, the button body never executes, and the state
afterwards holds the FIRST fetched question, not the second. -/
theorem C10_counterexample :
    (nextQuestionClick sTossupOverEx .tossup [1] [1] (.ok [tossupEx])
        (.ok [bonusEx]) (.ok [tossup2Ex]) (.ok [bonusEx])).question =
      some (.tossup tossupEx) ∧
    (nextQuestionClick sTossupOverEx .tossup [1] [1] (.ok [tossupEx])
        (.ok [bonusEx]) (.ok [tossup2Ex]) (.ok [bonusEx])).question ≠
      some (.tossup tossup2Ex) := by
  exact ⟨rfl, by decide⟩

/-- C10 (amended): a press of `Next Question →` always runs
`get_new_question` once as the `on_click` callback; the button body runs it
a second time exactly when the review screen is still rendered afterwards.
A successful tossup fetch resets `tossup_state` to `'waiting'`, so one fetch
occurs and the first fetched question is the one observed; a successful
bonus fetch leaves `tossup_state` at `'over'`, so the routine runs twice and
the session state reflects only the second fetch. -/
theorem C10_next_question_fetches (s : TrainerState)
    (selected_difficulties selected_categories : List Nat)
    (ft1 ft2 : Except String (List TossupQ))
    (fb1 fb2 : Except String (List BonusQ))
    (q1 : TossupQ) (restT : List TossupQ)
    (b1 : BonusQ) (restB1 : List BonusQ) (b2 : BonusQ) (restB2 : List BonusQ)
    (hd : selected_difficulties ≠ []) (hc : selected_categories ≠ [])
    (hover : s.tossup_state = .over) :
    (ft1 = .ok (q1 :: restT) →
      nextQuestionClick s .tossup selected_difficulties selected_categories
          ft1 fb1 ft2 fb2 =
        (get_new_question s .tossup selected_difficulties selected_categories
          ft1 fb1).1 ∧
      (nextQuestionClick s .tossup selected_difficulties selected_categories
          ft1 fb1 ft2 fb2).question = some (.tossup q1)) ∧
    (fb1 = .ok (b1 :: restB1) →
      nextQuestionClick s .bonus selected_difficulties selected_categories
          ft1 fb1 ft2 fb2 =
        (get_new_question
          (get_new_question s .bonus selected_difficulties selected_categories
            ft1 fb1).1
          .bonus selected_difficulties selected_categories ft2 fb2).1 ∧
      (fb2 = .ok (b2 :: restB2) →
        nextQuestionClick s .bonus selected_difficulties selected_categories
            ft1 fb1 ft2 fb2 =
          (get_new_question s .bonus selected_difficulties selected_categories
            ft2 fb2).1 ∧
        (nextQuestionClick s .bonus selected_difficulties selected_categories
            ft1 fb1 ft2 fb2).question = some (.bonus b2))) := by
  have hcond : ¬(selected_difficulties = [] ∨ selected_categories = []) := by
    simp [hd, hc]
  constructor
  · rintro rfl
    have hstate : (get_new_question s .tossup selected_difficulties
        selected_categories (.ok (q1 :: restT)) fb1).1.tossup_state = .waiting := by
      unfold get_new_question
      rw [if_neg hcond]
    have hgate : ¬((get_new_question s .tossup selected_difficulties
        selected_categories (.ok (q1 :: restT)) fb1).1.question ≠ none ∧
        is_game_over (get_new_question s .tossup selected_difficulties
          selected_categories (.ok (q1 :: restT)) fb1).1 = true) := by
      rintro ⟨-, hg⟩
      simp [is_game_over, hstate] at hg
    constructor
    · unfold nextQuestionClick
      rw [if_neg hgate]
    · unfold nextQuestionClick
      rw [if_neg hgate]
      unfold get_new_question
      rw [if_neg hcond]
  · rintro rfl
    have hstate : (get_new_question s .bonus selected_difficulties
        selected_categories ft1 (.ok (b1 :: restB1))).1.tossup_state =
        s.tossup_state := by
      unfold get_new_question
      rw [if_neg hcond]
    have hq : (get_new_question s .bonus selected_difficulties
        selected_categories ft1 (.ok (b1 :: restB1))).1.question =
        some (.bonus b1) := by
      unfold get_new_question
      rw [if_neg hcond]
    have hgate : (get_new_question s .bonus selected_difficulties
        selected_categories ft1 (.ok (b1 :: restB1))).1.question ≠ none ∧
        is_game_over (get_new_question s .bonus selected_difficulties
          selected_categories ft1 (.ok (b1 :: restB1))).1 = true := by
      constructor
      · rw [hq]; simp
      · simp [is_game_over, hstate, hover]
    refine ⟨?_, ?_⟩
    · unfold nextQuestionClick
      rw [if_pos hgate]
    · rintro rfl
      constructor
      · unfold nextQuestionClick
        rw [if_pos hgate]
        unfold get_new_question
        simp only [if_neg hcond]
      · unfold nextQuestionClick
        rw [if_pos hgate]
        unfold get_new_question
        simp only [if_neg hcond]

/-- A second concrete bonus, distinct from `bonusEx`. -/
def bonus2Ex : BonusQ :=
  { leadin := "For ten points each, name these rivers."
    parts := ["Longest river in Europe.", "Longest river in Asia.",
      "Longest river in Africa."]
    answers := ["Volga", "Yangtze", "Nile"] }

/-- C10 witness: from the example review screen, a tossup press fetches once
and keeps the first question; a bonus press fetches twice and keeps the
second bonus. -/
theorem C10_witness :
    nextQuestionClick sTossupOverEx .tossup [1] [1] (.ok [tossupEx])
        (.ok [bonusEx]) (.ok [tossup2Ex]) (.ok [bonus2Ex]) =
      (get_new_question sTossupOverEx .tossup [1] [1] (.ok [tossupEx])
        (.ok [bonusEx])).1 ∧
    (nextQuestionClick sTossupOverEx .tossup [1] [1] (.ok [tossupEx])
        (.ok [bonusEx]) (.ok [tossup2Ex]) (.ok [bonus2Ex])).question =
      some (.tossup tossupEx) ∧
    nextQuestionClick sTossupOverEx .bonus [1] [1] (.ok [tossupEx])
        (.ok [bonusEx]) (.ok [tossup2Ex]) (.ok [bonus2Ex]) =
      (get_new_question sTossupOverEx .bonus [1] [1] (.ok [tossup2Ex])
        (.ok [bonus2Ex])).1 ∧
    (nextQuestionClick sTossupOverEx .bonus [1] [1] (.ok [tossupEx])
        (.ok [bonusEx]) (.ok [tossup2Ex]) (.ok [bonus2Ex])).question =
      some (.bonus bonus2Ex) := by
  have h := C10_next_question_fetches sTossupOverEx [1] [1] (.ok [tossupEx])
    (.ok [tossup2Ex]) (.ok [bonusEx]) (.ok [bonus2Ex]) tossupEx [] bonusEx []
    bonus2Ex [] (by simp) (by simp) rfl
  exact ⟨(h.1 rfl).1, (h.1 rfl).2, ((h.2 rfl).2 rfl).1, ((h.2 rfl).2 rfl).2⟩

end ProjectNaranja
